import Mathlib

/-!
Shallow embedding of closure/examples/main.py: a Google App Engine webapp
request handler (MainHandler) that renders a list of demo pages through a
template engine, plus the application wiring in main().

Python values that flow through the handler (template variable mappings,
demo records, the default argument) are modelled by the PyVal type; Python
truthiness by pyFalsy. The template engine collaborator is a parameter
(Engine); every call the handler makes to it is logged in the RunResult so
that call counts and arguments can be stated.
-/

set_option autoImplicit false
set_option linter.unusedVariables false

/-- A Python value as used by the handler: None, booleans, integers,
strings, lists, and string-keyed dicts (entries in insertion order). -/
inductive PyVal where
  | none : PyVal
  | bool : Bool → PyVal
  | int : Int → PyVal
  | str : String → PyVal
  | list : List PyVal → PyVal
  | dict : List (String × PyVal) → PyVal

/-- Python truthiness: the test performed by the source line
if not template_values. -/
def pyFalsy : PyVal → Bool
  | PyVal.none => true
  | PyVal.bool b => !b
  | PyVal.int n => n == 0
  | PyVal.str s => s.isEmpty
  | PyVal.list xs => xs.isEmpty
  | PyVal.dict xs => xs.isEmpty

/-- Dictionary lookup (d[k] as an Option); returns nothing on non-dicts. -/
def dictLookup (k : String) : PyVal → Option PyVal
  | PyVal.dict entries => (entries.find? (fun e => e.1 = k)).map (fun e => e.2)
  | _ => Option.none

/-- The keys of a dict, in order; empty for non-dicts. -/
def dictKeys : PyVal → List String
  | PyVal.dict entries => entries.map (fun e => e.1)
  | _ => []

/-- Extract the payload of a string value, if any. -/
def strVal : Option PyVal → Option String
  | some (PyVal.str s) => some s
  | _ => Option.none

/-- Strip trailing slash characters, as posixpath.dirname does on the head. -/
def stripTrailingSlashes (cs : List Char) : List Char :=
  (cs.reverse.dropWhile (fun c => c = '/')).reverse

/-- os.path.dirname for POSIX paths: the text before the final slash,
with trailing slashes stripped unless the head is all slashes. -/
def posixDirname (p : String) : String :=
  let cs := p.toList
  match cs.reverse.findIdx? (fun c => c = '/') with
  | Option.none => ""
  | some k =>
    let head := cs.take (cs.length - k)
    if head.all (fun c => c = '/') then String.mk head
    else String.mk (stripTrailingSlashes head)

/-- os.path.join for two POSIX path components: the second wins when
absolute; otherwise it is appended, inserting a slash separator unless the
first component is empty or already ends in a slash. -/
def posixJoin2 (a b : String) : String :=
  if b.toList.head? = some '/' then b
  else if a = "" then b
  else if a.toList.getLast? = some '/' then a ++ b
  else a ++ "/" ++ b

/-- An HTTP request as the hosting framework hands it to the handler.
The handler's get method never inspects it. -/
structure Request where
  method : String
  path : String
  query : List (String × String)
  headers : List (String × String)
  body : String

/-- The response object: self.response.out is the ordered list of chunks
written so far. -/
structure Response where
  out : List String

/-- self.response.out.write(s): append one chunk. -/
def Response.write (r : Response) (s : String) : Response :=
  Response.mk (r.out ++ [s])

/-- Process environment the handler can observe: the module path
corresponding to Python's special variable for the current file, and the
working directory of the process (which the handler never uses). -/
structure Env where
  file : String
  cwd : String

/-- The template engine collaborator: template.render(path, values),
which may fail (missing or malformed template file). -/
abbrev Engine := String → PyVal → Except String String

/-- One call made to the template engine, with its two arguments. -/
structure RenderCall where
  path : String
  values : PyVal

/-- Outcome of running a handler method: the response after the run, the
calls made to the template engine in order, and the Python return value
(or the propagated exception). -/
structure RunResult where
  resp : Response
  calls : List RenderCall
  ret : Except String PyVal

/-- The value render_template forwards to the engine: the argument
defaults to None when omitted, and any falsy value is replaced by an
empty Python list by the line
template_values = [] guarded by if not template_values. -/
def forwardedValue (template_values : Option PyVal) : PyVal :=
  let tv := match template_values with
    | Option.none => PyVal.none
    | some v => v
  if pyFalsy tv then PyVal.list [] else tv

/-- The path computed by os.path.join(os.path.dirname(file), 'templates',
template_file). -/
def templatePath (env : Env) (template_file : String) : String :=
  posixJoin2 (posixJoin2 (posixDirname env.file) "templates") template_file

/-- MainHandler.render_template(template_file, template_values=None):
defaults the values, resolves the path, calls the engine once, and on
success writes the output to the response; the method body has no return
statement, so its Python return value is None. An engine failure
propagates and nothing is written. -/
def MainHandler.render_template (env : Env) (engine : Engine) (resp : Response)
    (template_file : String) (template_values : Option PyVal) : RunResult :=
  match engine (templatePath env template_file) (forwardedValue template_values) with
  | Except.error e =>
      RunResult.mk resp
        [RenderCall.mk (templatePath env template_file) (forwardedValue template_values)]
        (Except.error e)
  | Except.ok s =>
      RunResult.mk (resp.write s)
        [RenderCall.mk (templatePath env template_file) (forwardedValue template_values)]
        (Except.ok PyVal.none)

/-- The eight demo records built by MainHandler.get, in source order. -/
def demoRecords : List PyVal :=
  [ PyVal.dict [("title", PyVal.str "Component"), ("template", PyVal.str "component.html")],
    PyVal.dict [("title", PyVal.str "Button"), ("template", PyVal.str "buttons.html")],
    PyVal.dict [("title", PyVal.str "Link"), ("template", PyVal.str "link.html")],
    PyVal.dict [("title", PyVal.str "Container"), ("template", PyVal.str "containers.html")],
    PyVal.dict [("title", PyVal.str "Grid"), ("template", PyVal.str "grid.html")],
    PyVal.dict [("title", PyVal.str "Lightbox"), ("template", PyVal.str "lightbox.html")],
    PyVal.dict [("title", PyVal.str "Tab Container"), ("template", PyVal.str "tabcontainer.html")],
    PyVal.dict [("title", PyVal.str "AJAX"), ("template", PyVal.str "ajax.html")] ]

/-- The demos list bound in MainHandler.get. -/
def demos : PyVal := PyVal.list demoRecords

/-- MainHandler.get: builds the demo list and calls
self.render_template('main.html', dict with demos). The request object is
a parameter the method never reads. -/
def MainHandler.get (env : Env) (engine : Engine) (req : Request) (resp : Response) :
    RunResult :=
  MainHandler.render_template env engine resp "main.html"
    (some (PyVal.dict [("demos", demos)]))

/-- Handlers that can be registered with the application. -/
inductive HandlerTag where
  | mainHandler : HandlerTag
deriving DecidableEq

/-- The route table built in main():
webapp.WSGIApplication with the single pair of the root pattern and
MainHandler. -/
def application : List (String × HandlerTag) := [("/", HandlerTag.mainHandler)]

/-- The debug flag passed to WSGIApplication in main(). -/
def applicationDebug : Bool := true

/-- Modelled from the spec: the hosting framework's dispatch
(google.appengine.ext.webapp request routing) is not part of this
repository. Per the spec the application exposes a single route for the
root path, so for the literal patterns used here a request path selects a
handler exactly when it equals the registered pattern. -/
def dispatch (routes : List (String × HandlerTag)) (path : String) : Option HandlerTag :=
  (routes.find? (fun r => r.1 = path)).map (fun r => r.2)

/-- The (title, template) value pairs of the demo records. -/
def demoValuePairs : List (Option String × Option String) :=
  demoRecords.map (fun d => (strVal (dictLookup "title" d), strVal (dictLookup "template" d)))

/-- A demo record is well formed when it is a dict with exactly the keys
title and template, in that order, both bound to non-empty strings. -/
def wellFormedEntry : PyVal → Bool
  | PyVal.dict [("title", PyVal.str t), ("template", PyVal.str f)] => !t.isEmpty && !f.isEmpty
  | _ => false

/-- The chunks a run appended to the response, relative to the initial
response it started from. -/
def RunResult.writes (r : RunResult) (init : Response) : List String :=
  r.resp.out.drop init.out.length

/-- A concrete environment for sample runs. -/
def envDemo : Env := Env.mk "/app/closure/examples/main.py" "/srv"

/-- A concrete GET request to the root path. -/
def reqDemo : Request := Request.mk "GET" "/" [] [] ""

/-- A template engine that always succeeds with a fixed page. -/
def okEngine : Engine := fun _ _ => Except.ok "PAGE"

/-- A template engine that always fails. -/
def failEngine : Engine := fun _ _ => Except.error "boom"

theorem render_template_calls (env : Env) (engine : Engine) (resp : Response)
    (tf : String) (tvs : Option PyVal) :
    (MainHandler.render_template env engine resp tf tvs).calls =
      [RenderCall.mk (templatePath env tf) (forwardedValue tvs)] := by
  unfold MainHandler.render_template
  cases engine (templatePath env tf) (forwardedValue tvs) <;> rfl

theorem render_template_ok (env : Env) (engine : Engine) (resp : Response) (tf : String)
    (tvs : Option PyVal) (s : String)
    (h : engine (templatePath env tf) (forwardedValue tvs) = Except.ok s) :
    MainHandler.render_template env engine resp tf tvs =
      RunResult.mk (resp.write s) [RenderCall.mk (templatePath env tf) (forwardedValue tvs)]
        (Except.ok PyVal.none) := by
  unfold MainHandler.render_template
  rw [h]

theorem render_template_error (env : Env) (engine : Engine) (resp : Response) (tf : String)
    (tvs : Option PyVal) (e : String)
    (h : engine (templatePath env tf) (forwardedValue tvs) = Except.error e) :
    MainHandler.render_template env engine resp tf tvs =
      RunResult.mk resp [RenderCall.mk (templatePath env tf) (forwardedValue tvs)]
        (Except.error e) := by
  unfold MainHandler.render_template
  rw [h]

theorem forwardedValue_demos :
    forwardedValue (some (PyVal.dict [("demos", demos)])) = PyVal.dict [("demos", demos)] := rfl

theorem get_writes_eq (env : Env) (engine : Engine) (req : Request) (resp : Response) :
    (MainHandler.get env engine req resp).writes resp =
      match engine (templatePath env "main.html") (PyVal.dict [("demos", demos)]) with
      | Except.error _ => []
      | Except.ok s => [s] := by
  unfold MainHandler.get MainHandler.render_template RunResult.writes
  rw [forwardedValue_demos]
  cases engine (templatePath env "main.html") (PyVal.dict [("demos", demos)]) <;>
    simp [Response.write, List.drop_length, List.drop_left]

/-- C1: every run of MainHandler.get builds the demo list with exactly eight
entries whose (title, template file) value pairs are, in order: Component,
Button, Link, Container, Grid, Lightbox, Tab Container, AJAX with their
respective template files, with no additional or omitted entries; this list
is what the render call binds to the name demos. -/
theorem demo_list_entries (env : Env) (engine : Engine) (req : Request) (resp : Response) :
    (MainHandler.get env engine req resp).calls.map (fun c => dictLookup "demos" c.values)
      = [some demos]
    ∧ demoRecords.length = 8
    ∧ demoValuePairs =
      [ (some "Component", some "component.html"),
        (some "Button", some "buttons.html"),
        (some "Link", some "link.html"),
        (some "Container", some "containers.html"),
        (some "Grid", some "grid.html"),
        (some "Lightbox", some "lightbox.html"),
        (some "Tab Container", some "tabcontainer.html"),
        (some "AJAX", some "ajax.html") ] := by
  refine ⟨?_, rfl, rfl⟩
  unfold MainHandler.get
  rw [render_template_calls]
  rfl

/-- C2 counterexample: with the template values argument omitted,
render_template forwards an empty Python list to the engine, and an empty
list is not an empty mapping, so the claim that an empty mapping is
forwarded fails at this concrete input. -/
theorem default_arg_not_mapping_cex :
    (MainHandler.render_template envDemo okEngine (Response.mk []) "main.html"
        Option.none).calls.map RenderCall.values = [PyVal.list []]
    ∧ ([PyVal.list []] : List PyVal) ≠ [PyVal.dict []] := by
  refine ⟨rfl, ?_⟩
  intro h
  injection h with h1 h2
  exact PyVal.noConfusion h1

/-- C2 (amended): calling render_template with no templateValues argument
does not raise and behaves exactly as if an empty mapping had been passed
(the two runs are identical for every engine), but the value forwarded to
the engine in that case is an empty list, not an empty mapping; with a
total engine the call returns normally. -/
theorem default_arg_empty_list (env : Env) (engine : Engine) (resp : Response) (tf : String) :
    MainHandler.render_template env engine resp tf Option.none =
      MainHandler.render_template env engine resp tf (some (PyVal.dict []))
    ∧ (MainHandler.render_template env engine resp tf Option.none).calls.map RenderCall.values
        = [PyVal.list []]
    ∧ (∀ f : String → PyVal → String,
        (MainHandler.render_template env (fun p v => Except.ok (f p v)) resp tf
          Option.none).ret = Except.ok PyVal.none) := by
  refine ⟨rfl, ?_, fun f => rfl⟩
  rw [render_template_calls]
  rfl

/-- C3 counterexample: with an engine whose render call returns the page
PAGE, render_template returns None (the method body has no return
statement), not that output, so the claim that the helper returns the
collaborator output fails at this concrete input. -/
theorem ret_value_not_output_cex :
    okEngine (templatePath envDemo "main.html") (PyVal.list []) = Except.ok "PAGE"
    ∧ (MainHandler.render_template envDemo okEngine (Response.mk []) "main.html"
        Option.none).ret = Except.ok PyVal.none
    ∧ (Except.ok PyVal.none : Except String PyVal) ≠ Except.ok (PyVal.str "PAGE") := by
  refine ⟨rfl, rfl, ?_⟩
  intro h
  injection h with h2
  exact PyVal.noConfusion h2

/-- C3 (amended): for every template file name and values argument,
render_template writes the engine output verbatim to the response body as
its only write, logs exactly that one render call, and returns None. -/
theorem render_template_writes_output (env : Env) (f : String → PyVal → String)
    (resp : Response) (tf : String) (tvs : Option PyVal) :
    MainHandler.render_template env (fun p v => Except.ok (f p v)) resp tf tvs =
      RunResult.mk (resp.write (f (templatePath env tf) (forwardedValue tvs)))
        [RenderCall.mk (templatePath env tf) (forwardedValue tvs)]
        (Except.ok PyVal.none) := rfl

/-- C4 counterexample: the first demo record has no attribute named
templateFile; the template file name is stored under the attribute named
template instead. -/
theorem demo_attr_name_cex :
    demoRecords.length = 8
    ∧ demoRecords.head?.bind (dictLookup "templateFile") = Option.none
    ∧ demoRecords.head?.bind (dictLookup "template") = some (PyVal.str "component.html") :=
  ⟨rfl, rfl, rfl⟩

/-- C4 (amended): every record in the sequence bound to the template
variable demos has exactly the two attributes named title and template, in
that order, and in every record both attributes are populated non-empty
strings. -/
theorem demo_records_shape (env : Env) (engine : Engine) (req : Request) (resp : Response) :
    (MainHandler.get env engine req resp).calls.map RenderCall.values
      = [PyVal.dict [("demos", PyVal.list demoRecords)]]
    ∧ demoRecords.map dictKeys = List.replicate 8 ["title", "template"]
    ∧ demoRecords.all wellFormedEntry = true := by
  refine ⟨?_, rfl, rfl⟩
  unfold MainHandler.get
  rw [render_template_calls]
  rfl

/-- C5: the path render_template hands to the engine is the join of the
directory containing the handler's own source file, the fixed component
templates, and the given file name; it does not depend on the process
working directory. -/
theorem template_path_from_handler_location (env : Env) (engine : Engine) (resp : Response)
    (tf : String) (tvs : Option PyVal) :
    (MainHandler.render_template env engine resp tf tvs).calls.map RenderCall.path
      = [posixJoin2 (posixJoin2 (posixDirname env.file) "templates") tf]
    ∧ (∀ cwd cwd' : String,
        templatePath (Env.mk env.file cwd) tf = templatePath (Env.mk env.file cwd') tf) := by
  refine ⟨?_, fun cwd cwd' => rfl⟩
  rw [render_template_calls]
  rfl

/-- C6: every run of MainHandler.get makes exactly one render call, whose
path resolves the main.html template and whose variable mapping binds the
single name demos to the demo list; when the engine succeeds the rendered
output is written into the response body. -/
theorem get_single_render_call (env : Env) (engine : Engine) (req : Request) (resp : Response) :
    (MainHandler.get env engine req resp).calls =
      [RenderCall.mk (templatePath env "main.html") (PyVal.dict [("demos", demos)])]
    ∧ (MainHandler.get env engine req resp).calls.length = 1
    ∧ (∀ s : String,
        engine (templatePath env "main.html") (PyVal.dict [("demos", demos)]) = Except.ok s →
        (MainHandler.get env engine req resp).resp = resp.write s) := by
  have hc : (MainHandler.get env engine req resp).calls =
      [RenderCall.mk (templatePath env "main.html") (PyVal.dict [("demos", demos)])] := by
    unfold MainHandler.get
    rw [render_template_calls]
    rfl
  refine ⟨hc, by rw [hc]; rfl, ?_⟩
  intro s hs
  have hs' : engine (templatePath env "main.html")
      (forwardedValue (some (PyVal.dict [("demos", demos)]))) = Except.ok s := hs
  have h2 := render_template_ok env engine resp "main.html"
    (some (PyVal.dict [("demos", demos)])) s hs'
  exact congrArg RunResult.resp h2

/-- C6 witness: a concrete run with an engine returning PAGE writes PAGE. -/
theorem get_single_render_call_witness :
    (MainHandler.get envDemo okEngine reqDemo (Response.mk [])).resp
      = Response.write (Response.mk []) "PAGE" :=
  (get_single_render_call envDemo okEngine reqDemo (Response.mk [])).2.2 "PAGE" rfl

/-- C7: when the engine's render call fails, both render_template and
MainHandler.get propagate the same failure and leave the response body
unchanged: nothing is written for that request. -/
theorem engine_failure_propagates (env : Env) (engine : Engine) (req : Request)
    (resp : Response) (tf : String) (tvs : Option PyVal) (e : String) :
    (engine (templatePath env tf) (forwardedValue tvs) = Except.error e →
      MainHandler.render_template env engine resp tf tvs =
        RunResult.mk resp [RenderCall.mk (templatePath env tf) (forwardedValue tvs)]
          (Except.error e))
    ∧ (engine (templatePath env "main.html") (PyVal.dict [("demos", demos)]) = Except.error e →
      MainHandler.get env engine req resp =
        RunResult.mk resp
          [RenderCall.mk (templatePath env "main.html") (PyVal.dict [("demos", demos)])]
          (Except.error e)) := by
  constructor
  · intro h
    exact render_template_error env engine resp tf tvs e h
  · intro h
    have h' : engine (templatePath env "main.html")
        (forwardedValue (some (PyVal.dict [("demos", demos)]))) = Except.error e := h
    exact render_template_error env engine resp "main.html"
      (some (PyVal.dict [("demos", demos)])) e h'

/-- C7 witness: a concrete run with a failing engine propagates the error
and leaves the previously written response intact. -/
theorem engine_failure_propagates_witness :
    MainHandler.get envDemo failEngine reqDemo (Response.mk ["prior"]) =
      RunResult.mk (Response.mk ["prior"])
        [RenderCall.mk (templatePath envDemo "main.html") (PyVal.dict [("demos", demos)])]
        (Except.error "boom") :=
  (engine_failure_propagates envDemo failEngine reqDemo (Response.mk ["prior"]) "main.html"
    Option.none "boom").2 rfl

/-- C8: the handler is deterministic and stateless: runs with any two
requests produce identical results from the same initial response, and the
chunks appended to the response body do not depend on the request or on
anything written before the run; no state is shared across requests, every
run being a pure function of the environment and the engine. -/
theorem get_request_independent (env : Env) (engine : Engine)
    (req1 req2 : Request) (resp1 resp2 : Response) :
    MainHandler.get env engine req1 resp1 = MainHandler.get env engine req2 resp1
    ∧ (MainHandler.get env engine req1 resp1).writes resp1
        = (MainHandler.get env engine req2 resp2).writes resp2 := by
  refine ⟨rfl, ?_⟩
  rw [get_writes_eq env engine req1 resp1, get_writes_eq env engine req2 resp2]

/-- C9: main registers exactly one route, mapping the root path to the
demo index handler; a request path is dispatched to that handler exactly
when it is the root path, and the handler reads nothing from the request
object (no query parameters, headers, or body). -/
theorem single_root_route (env : Env) (engine : Engine) (resp : Response)
    (req1 req2 : Request) :
    application = [("/", HandlerTag.mainHandler)]
    ∧ application.length = 1
    ∧ (∀ p : String, dispatch application p = some HandlerTag.mainHandler ↔ p = "/")
    ∧ MainHandler.get env engine req1 resp = MainHandler.get env engine req2 resp := by
  refine ⟨rfl, rfl, ?_, rfl⟩
  intro p
  constructor
  · intro h
    by_cases hp : p = "/"
    · exact hp
    · exfalso
      have hne : ¬ (("/" : String) = p) := fun hq => hp hq.symm
      simp [dispatch, application, hne] at h
  · intro hp
    subst hp
    rfl

/-- C9 witness: a non-root path is not dispatched to the handler. -/
theorem single_root_route_witness :
    dispatch application "/other" ≠ some HandlerTag.mainHandler := by
  intro h
  have hp := ((single_root_route envDemo okEngine (Response.mk []) reqDemo reqDemo).2.2.1
    "/other").mp h
  exact absurd hp (by decide)

/-- C10: for every falsy templateValues argument, the omitted or None case
as well as an explicitly passed empty mapping, render_template replaces
the argument with an empty list before delegating, so the engine receives
an empty list in all of those cases. -/
theorem falsy_values_replaced (env : Env) (engine : Engine) (resp : Response)
    (tf : String) (tvs : Option PyVal)
    (h : tvs = Option.none ∨ ∃ v, tvs = some v ∧ pyFalsy v = true) :
    (MainHandler.render_template env engine resp tf tvs).calls.map RenderCall.values
      = [PyVal.list []] := by
  have hv : forwardedValue tvs = PyVal.list [] := by
    rcases h with h | ⟨v, hveq, hf⟩
    · subst h
      rfl
    · subst hveq
      simp [forwardedValue, hf]
  rw [render_template_calls, hv]
  rfl

/-- C10 witness: an explicitly passed empty mapping is replaced by an
empty list before delegation. -/
theorem falsy_values_replaced_witness :
    (MainHandler.render_template envDemo okEngine (Response.mk []) "component.html"
      (some (PyVal.dict []))).calls.map RenderCall.values = [PyVal.list []] :=
  falsy_values_replaced envDemo okEngine (Response.mk []) "component.html"
    (some (PyVal.dict [])) (Or.inr ⟨PyVal.dict [], rfl, rfl⟩)
